import Mathlib

/-!
Verification of the seminar-kit generation pipeline (`src/main.py`).

The source is a FastAPI service that turns a topic string plus student
metadata into a slide deck, a report and a Q&A transcript.  This file
shallowly embeds the pure content-structuring core of that program:

* the Python string primitives the code uses (`strip`, `split`,
  `startswith`, `lstrip`, `replace`), modelled on `List Char`;
* the outline parser and its section fallback inside
  `generate_detailed_content`;
* the Q&A parser and its fallback inside `generate_kit`;
* the slide construction of `generate_enhanced_pptx`;
* the post-save verification of both renderers and the `download_file`
  endpoint, with the file system abstracted as an `Option Nat`
  (absent, or present with a byte size).

Strings are modelled as `List Char`; a Lean string literal `s` is
injected with `s.data`.
-/

/-- Characters removed by Python `str.strip()` (ASCII whitespace). -/
def isPySpace (c : Char) : Bool :=
  c = ' ' || c = '\t' || c = '\n' || c = '\r' || c = '\x0b' || c = '\x0c'

/-- Python `str.strip()`: drop whitespace from both ends. -/
def pyStripList (l : List Char) : List Char :=
  ((l.dropWhile isPySpace).reverse.dropWhile isPySpace).reverse

/-- Python `text.split('\n')`: split on newline, keeping empty pieces
(`''.split('\n') == ['']`). -/
def splitNL : List Char → List (List Char)
  | [] => [[]]
  | c :: rest =>
    if c = '\n' then [] :: splitNL rest
    else
      match splitNL rest with
      | [] => [[c]]
      | l :: ls => (c :: l) :: ls

/-- Python `line.startswith(pat)`. -/
def startsWithL : List Char → List Char → Bool
  | [], _ => true
  | _ :: _, [] => false
  | p :: ps, c :: cs => p = c && startsWithL ps cs

/-- Python `line.endswith(pat)`. -/
def endsWithL (pat l : List Char) : Bool :=
  startsWithL pat.reverse l.reverse

/-- Python `line.split(':', 1)[1]`: everything after the first colon.
Only used under the guard `':' in line`, which makes the index total. -/
def afterFirstColon : List Char → List Char
  | [] => []
  | c :: rest => if c = ':' then rest else afterFirstColon rest

/-- Recursion core of `pyReplace`, structurally recursive on a fuel
counter so that it reduces in the kernel.  The fuel is initialised to
the length of the list; every step consumes at least one character and
exactly one unit of fuel, so the `0` case is only reached on `[]`. -/
def pyReplaceAux (pat rep : List Char) : Nat → List Char → List Char
  | _, [] => []
  | 0, l => l
  | fuel + 1, c :: rest =>
    if startsWithL pat (c :: rest) && !pat.isEmpty then
      rep ++ pyReplaceAux pat rep fuel (rest.drop (pat.length - 1))
    else
      c :: pyReplaceAux pat rep fuel rest

/-- Python `s.replace(pat, rep)`: replace every non-overlapping
occurrence of `pat`, left to right.  (Python's empty-pattern behaviour
is irrelevant here: the source only replaces non-empty literals, and
the empty pattern is treated as matching nothing.) -/
def pyReplace (pat rep l : List Char) : List Char :=
  pyReplaceAux pat rep l.length l

/-- One parsed outline section, as built by `generate_detailed_content`.
`sub_points = none` models a Python dict without the `'sub_points'`
key; `some l` models the key being present with value `l`. -/
structure PySection where
  title : List Char
  points : List (List Char)
  sub_points : Option (List (List Char))
deriving DecidableEq

/-- The `if current_section: sections.append(current_section)` flush. -/
def flushSection (sections : List PySection) (cur : Option PySection) : List PySection :=
  match cur with
  | some s => sections ++ [s]
  | none => sections

/-- One iteration of the outline-parsing loop of
`generate_detailed_content` (src/main.py lines 239-261).  The state is
`(sections, current_section)`.  The Python `elif` chain tests
`current_section` truthiness together with the bullet marker; here the
`current_section` match is hoisted outside the marker tests, which is
equivalent since a bullet line without a current section falls through
to "ignore" either way. -/
def sectionStep (st : List PySection × Option PySection) (rawLine : List Char) :
    List PySection × Option PySection :=
  let line := pyStripList rawLine
  if line = [] then st
  else if startsWithL "Section".data line && line.contains ':' then
    (flushSection st.1 st.2,
     some ⟨pyStripList (afterFirstColon line), [], some []⟩)
  else
    match st.2 with
    | none => st
    | some cs =>
      if startsWithL "-".data line then
        let point := pyStripList (line.dropWhile (fun c => c = '-' || c = ' '))
        if point ≠ [] then (st.1, some { cs with points := cs.points ++ [point] }) else st
      else if startsWithL "•".data line then
        let point := pyStripList (line.dropWhile (fun c => c = '•' || c = ' '))
        if point ≠ [] then (st.1, some { cs with points := cs.points ++ [point] }) else st
      else st

/-- The outline parser of `generate_detailed_content` (src/main.py
lines 233-265): split the generated text on newlines, run the
line loop, then flush the trailing open section. -/
def parseSections (text : List Char) : List PySection :=
  let st := (splitNL text).foldl sectionStep ([], none)
  flushSection st.1 st.2

/-- The six-section fallback template of `generate_detailed_content`
(src/main.py lines 268-324).  These dicts carry no `'sub_points'` key. -/
def fallbackSections6 (topic : List Char) : List PySection :=
  [⟨"Introduction and Overview".data,
    ["Definition and scope of ".data ++ topic,
     "Importance in current technological landscape".data,
     "Objectives of this presentation".data,
     "Expected outcomes and benefits".data], none⟩,
   ⟨"Literature Review and Background".data,
    ["Historical development and evolution".data,
     "Key research contributions".data,
     "Current state of technology".data,
     "Gaps in existing knowledge".data], none⟩,
   ⟨"Core Concepts and Methodology".data,
    ["Fundamental principles and theories".data,
     "Technical architecture and design".data,
     "Implementation methodologies".data,
     "Performance metrics and evaluation".data], none⟩,
   ⟨"Applications and Case Studies".data,
    ["Industry applications and use cases".data,
     "Real-world implementation examples".data,
     "Success stories and best practices".data,
     "Comparative analysis with alternatives".data], none⟩,
   ⟨"Challenges and Limitations".data,
    ["Technical challenges and constraints".data,
     "Implementation barriers".data,
     "Cost and resource considerations".data,
     "Scalability and performance issues".data], none⟩,
   ⟨"Future Scope and Recommendations".data,
    ["Emerging trends and opportunities".data,
     "Research directions and possibilities".data,
     "Recommendations for implementation".data,
     "Expected future developments".data], none⟩]

/-- The four-section template returned by the `except` branch of
`generate_detailed_content` (src/main.py lines 328-348). -/
def fallbackSections4 (topic : List Char) : List PySection :=
  [⟨"Introduction".data,
    ["Overview of ".data ++ topic,
     "Significance and applications".data,
     "Presentation objectives".data], none⟩,
   ⟨"Technical Details".data,
    ["Core concepts".data,
     "Implementation methods".data,
     "Key features".data], none⟩,
   ⟨"Applications".data,
    ["Industry use cases".data,
     "Practical examples".data,
     "Benefits and advantages".data], none⟩,
   ⟨"Future Scope".data,
    ["Emerging trends".data,
     "Research opportunities".data,
     "Potential developments".data], none⟩]

/-- The fallback decision of `generate_detailed_content`
(src/main.py lines 267-326): parse, then fully replace the parsed
sections by the six-section template when fewer than 4 were found. -/
def sectionsAfterFallback (topic detailed_content : List Char) : List PySection :=
  let sections := parseSections detailed_content
  if sections.length < 4 then fallbackSections6 topic else sections

/-- The whole of `generate_detailed_content` (src/main.py lines
186-348).  The `gen` argument is the outcome of the `try` body's call
into the text source: `.ok text` when `gpt_generate` returned `text`
and no exception was raised, `.error msg` when an exception with
message `msg` escaped inside the `try` block, in which case the
`except` branch returns the four-section template. -/
def generate_detailed_content (topic : List Char)
    (gen : Except (List Char) (List Char)) : List PySection :=
  match gen with
  | .ok detailed_content => sectionsAfterFallback topic detailed_content
  | .error _ => fallbackSections4 topic

example : parseSections "Section 1: Intro\n- a point\nSection 2: More".data =
    [⟨"Intro".data, ["a point".data], some []⟩,
     ⟨"More".data, [], some []⟩] := by decide

example : parseSections "Section 1:".data = [⟨[], [], some []⟩] := by decide

/-- One question/answer pair, as built by the Q&A loop in
`generate_kit`. -/
structure QnAPair where
  question : List Char
  answer : List Char
deriving DecidableEq

/-- One iteration of the Q&A parsing loop of `generate_kit`
(src/main.py lines 461-471).  The state is
`(qna_pairs, current_q, current_a)`; Python string truthiness becomes
a `≠ []` test. -/
def qnaStep (st : List QnAPair × List Char × List Char) (rawLine : List Char) :
    List QnAPair × List Char × List Char :=
  let line := pyStripList rawLine
  let pairs := st.1
  let current_q := st.2.1
  let current_a := st.2.2
  if startsWithL "Q:".data line || startsWithL "Question".data line then
    ((if current_q ≠ [] ∧ current_a ≠ [] then pairs ++ [⟨current_q, current_a⟩] else pairs),
     pyStripList (pyReplace "Question:".data [] (pyReplace "Q:".data [] line)),
     [])
  else if startsWithL "A:".data line || startsWithL "Answer".data line then
    (pairs, current_q,
     pyStripList (pyReplace "Answer:".data [] (pyReplace "A:".data [] line)))
  else if current_a ≠ [] ∧ line ≠ [] ∧ ¬ startsWithL "Q:".data line then
    (pairs, current_q, current_a ++ " ".data ++ line)
  else st

/-- The Q&A parser of `generate_kit` (src/main.py lines 457-475):
run the line loop, then flush the final pair when both slots are
non-empty. -/
def parseQnA (text : List Char) : List QnAPair :=
  let st := (splitNL text).foldl qnaStep ([], [], [])
  if st.2.1 ≠ [] ∧ st.2.2 ≠ [] then st.1 ++ [⟨st.2.1, st.2.2⟩] else st.1

/-- The eight-pair fallback template of `generate_kit`
(src/main.py lines 479-496). -/
def fallbackQnA8 (topic : List Char) : List QnAPair :=
  [⟨"What is ".data ++ topic ++ " and why is it important?".data,
    topic ++ " is a significant technological advancement that plays a crucial role in modern applications. Its importance lies in its ability to solve complex problems and improve efficiency in various domains.".data⟩,
   ⟨"What are the key technical components of ".data ++ topic ++ "?".data,
    "The main technical components include core algorithms, implementation frameworks, and supporting infrastructure. These components work together to provide comprehensive functionality.".data⟩,
   ⟨"What are the real-world applications of ".data ++ topic ++ "?".data,
    topic ++ " finds applications in multiple industries including healthcare, finance, manufacturing, and telecommunications. It enables automation and optimization of complex processes.".data⟩,
   ⟨"What are the main advantages and limitations of ".data ++ topic ++ "?".data,
    "Key advantages include improved efficiency, scalability, and cost-effectiveness. However, limitations may include implementation complexity, resource requirements, and technical constraints.".data⟩,
   ⟨"What does the future hold for ".data ++ topic ++ "?".data,
    "Future developments in ".data ++ topic ++ " are expected to focus on enhanced performance, broader applications, and integration with emerging technologies. Research continues to address current limitations.".data⟩,
   ⟨"How does ".data ++ topic ++ " compare with alternative approaches?".data,
    "Compared to traditional methods, ".data ++ topic ++ " offers superior performance in terms of speed, accuracy, and scalability. However, the choice depends on specific requirements and constraints.".data⟩,
   ⟨"What are the main challenges in implementing ".data ++ topic ++ "?".data,
    "Implementation challenges include technical complexity, resource allocation, skill requirements, and integration with existing systems. Proper planning and expertise are essential for success.".data⟩,
   ⟨"What research opportunities exist in ".data ++ topic ++ "?".data,
    "Research opportunities include algorithm optimization, new application domains, performance enhancement, and addressing current limitations. Interdisciplinary collaboration can lead to breakthrough innovations.".data⟩]

/-- The Q&A fallback decision of `generate_kit` (src/main.py lines
477-496): fully replace the parsed pairs by the eight-pair template
when fewer than 5 were parsed. -/
def qnaAfterFallback (topic qna_text : List Char) : List QnAPair :=
  let qna_pairs := parseQnA qna_text
  if qna_pairs.length < 5 then fallbackQnA8 topic else qna_pairs

example : parseQnA "Q: X\nA: part1\nmore text".data =
    [⟨"X".data, "part1 more text".data⟩] := by decide

/-- Python `str.upper()` (ASCII range suffices for this code). -/
def pyUpper (l : List Char) : List Char :=
  l.map Char.toUpper

/-- The student metadata dict passed to the renderers. -/
structure StudentInfo where
  name : List Char
  roll : List Char
  college : List Char
  semester : List Char
  branch : List Char
deriving DecidableEq

/-- One slide of the deck, abstracted to its title text and the text
set on its body placeholder (layout/font attributes carry no
information relevant to the claims). -/
structure Slide where
  title : List Char
  body : List Char
deriving DecidableEq

/-- Title slide of `generate_enhanced_pptx` (src/main.py lines 64-87). -/
def titleSlide (topic : List Char) (info : StudentInfo) : Slide :=
  ⟨pyUpper topic,
   "Presented by: ".data ++ info.name ++ "\nRoll No: ".data ++ info.roll ++
   "\n".data ++ info.college ++ "\nSemester: ".data ++ info.semester ++
   " | Branch: ".data ++ info.branch ++
   "\n\nAcademic Seminar Presentation".data⟩

/-- Agenda slide of `generate_enhanced_pptx` (src/main.py lines
89-109): a numbered line per section title, numbering from 1. -/
def agendaSlide (sections : List PySection) : Slide :=
  ⟨"PRESENTATION AGENDA".data,
   (List.enumFrom 1 sections).foldl
     (fun acc p => acc ++ ((toString p.1).data ++ ". ".data ++ p.2.title ++ "\n".data)) []⟩

/-- The body text built for one content slide (src/main.py lines
125-135): bullet lines for the points, then — whenever the
`'sub_points'` key is present in the section dict, regardless of the
list being empty — a "Key Details:" header and a nested bullet line
per sub-point. -/
def contentText (s : PySection) : List Char :=
  let t := s.points.foldl (fun acc point => acc ++ ("• ".data ++ point ++ "\n".data)) []
  match s.sub_points with
  | none => t
  | some subs =>
    subs.foldl (fun acc sub_point => acc ++ ("  ◦ ".data ++ sub_point ++ "\n".data))
      (t ++ "\nKey Details:\n".data)

/-- One content slide of `generate_enhanced_pptx` (src/main.py lines
111-146). -/
def contentSlide (s : PySection) : Slide :=
  ⟨pyUpper s.title, contentText s⟩

/-- Conclusion slide of `generate_enhanced_pptx` (src/main.py lines
148-170). -/
def conclusionSlide (topic : List Char) : Slide :=
  ⟨"CONCLUSION & FUTURE SCOPE".data,
   "• ".data ++ topic ++
   " represents a significant advancement in technology\n• Widespread applications across multiple industries\n• Continuous research and development ongoing\n• Future implementation will revolutionize current practices\n• Potential for further innovation and improvement\n\nThank you for your attention!\nQuestions & Discussion".data⟩

/-- The deck built by `generate_enhanced_pptx` before saving
(src/main.py lines 62-170), as the list of slides in `add_slide`
order: title slide, agenda slide, one content slide per section, and
the conclusion slide. -/
def buildDeck (topic : List Char) (sections : List PySection) (info : StudentInfo) :
    List Slide :=
  let s1 := [titleSlide topic info]
  let s2 := s1 ++ [agendaSlide sections]
  let s3 := sections.foldl (fun acc sec => acc ++ [contentSlide sec]) s2
  s3 ++ [conclusionSlide topic]

/-- Outcome of a renderer call: the returned filename, or a raised
exception with its message. -/
inductive RenderOutcome where
  | ok (filename : List Char)
  | fatal (msg : List Char)
deriving DecidableEq

/-- Post-save verification of `generate_enhanced_pptx` (src/main.py
lines 172-184).  `fsAfterSave` is the state of the saved path right
after `prs.save`: `none` if the file is absent, `some n` if present
with `n` bytes.  The code raises when `os.path.exists` fails (wrapped
by the outer `except` into a new message) and otherwise returns the
filename; the file size is never examined. -/
def pptxVerify (filename : List Char) (fsAfterSave : Option Nat) : RenderOutcome :=
  match fsAfterSave with
  | none => .fatal ("Failed to create enhanced PPTX: PPTX file was not created at ".data ++ filename)
  | some _ => .ok filename

/-- Post-save verification of `generate_docx` (src/main.py lines
402-415).  The code checks `os.path.exists`, then reads
`os.path.getsize` only to print it — a zero size is not rejected. -/
def docxVerify (filename : List Char) (fsAfterSave : Option Nat) : RenderOutcome :=
  match fsAfterSave with
  | none => .fatal ("Failed to create enhanced DOCX: DOCX file was not created at ".data ++ filename)
  | some _ => .ok filename

/-- Outcome of the `download_file` endpoint: an `HTTPException` with
status and detail, or a `FileResponse` serving the resolved path with
a media type. -/
inductive DownloadOutcome where
  | httpError (status : Nat) (detail : List Char)
  | file (path : List Char) (media : List Char)
deriving DecidableEq

/-- Media-type dispatch of `download_file` (src/main.py lines
557-565). -/
def mediaTypeFor (filename : List Char) : List Char :=
  if endsWithL ".docx".data filename then
    "application/vnd.openxmlformats-officedocument.wordprocessingml.document".data
  else if endsWithL ".pptx".data filename then
    "application/vnd.openxmlformats-officedocument.presentationml.presentation".data
  else if endsWithL ".txt".data filename then
    "text/plain".data
  else
    "application/octet-stream".data

/-- The `download_file` endpoint (src/main.py lines 541-572).  `fs`
is the state of the requested path in the artifact directory: `none`
if absent, `some n` if present with `n` bytes.  Missing file → 404;
empty file → 500; otherwise the requested file itself is served. -/
def download_file (fs : Option Nat) (filename : List Char) : DownloadOutcome :=
  match fs with
  | none => .httpError 404 "File not found".data
  | some file_size =>
    if file_size = 0 then .httpError 500 "Generated file is empty".data
    else .file filename (mediaTypeFor filename)

/-- Bullet lines of a content slide in isolation: the points fold of
`contentText` started from the empty string. -/
def bulletLines (points : List (List Char)) : List Char :=
  points.foldl (fun acc point => acc ++ ("• ".data ++ point ++ "\n".data)) []

/-- Nested bullet lines of the "Key Details" block in isolation: the
sub-points fold of `contentText` started from the empty string. -/
def subBulletLines (subs : List (List Char)) : List Char :=
  subs.foldl (fun acc sub_point => acc ++ ("  ◦ ".data ++ sub_point ++ "\n".data)) []

theorem foldl_append_shift {α : Type} (f : α → List Char) :
    ∀ (l : List α) (init : List Char),
      l.foldl (fun acc x => acc ++ f x) init = init ++ l.foldl (fun acc x => acc ++ f x) []
  | [], init => by simp
  | x :: t, init => by
    simp only [List.foldl_cons]
    rw [foldl_append_shift f t (init ++ f x), foldl_append_shift f t ([] ++ f x)]
    simp [List.append_assoc]

theorem bulletLines_shift (points : List (List Char)) (init : List Char) :
    points.foldl (fun acc point => acc ++ ("• ".data ++ point ++ "\n".data)) init
      = init ++ bulletLines points := by
  unfold bulletLines
  exact foldl_append_shift (fun point => "• ".data ++ point ++ "\n".data) points init

theorem subBulletLines_shift (subs : List (List Char)) (init : List Char) :
    subs.foldl (fun acc sub_point => acc ++ ("  ◦ ".data ++ sub_point ++ "\n".data)) init
      = init ++ subBulletLines subs := by
  unfold subBulletLines
  exact foldl_append_shift (fun sub_point => "  ◦ ".data ++ sub_point ++ "\n".data) subs init

theorem length_foldl_contentSlide (sections : List PySection) (init : List Slide) :
    (sections.foldl (fun acc sec => acc ++ [contentSlide sec]) init).length
      = init.length + sections.length := by
  induction sections generalizing init with
  | nil => simp
  | cons a t ih =>
    simp only [List.foldl_cons]
    rw [ih]
    simp
    omega

theorem dropWhile_dropWhile (p : Char → Bool) (l : List Char) :
    (l.dropWhile p).dropWhile p = l.dropWhile p := by
  have h := List.head?_dropWhile_not p l
  cases hd : l.dropWhile p with
  | nil => simp
  | cons c t =>
    rw [hd] at h
    simp only [List.head?_cons] at h
    simp [List.dropWhile_cons, h]

theorem pyStripList_idem (l : List Char) : pyStripList (pyStripList l) = pyStripList l := by
  unfold pyStripList
  have h1 : (((l.dropWhile isPySpace).reverse.dropWhile isPySpace).reverse).dropWhile isPySpace
      = ((l.dropWhile isPySpace).reverse.dropWhile isPySpace).reverse := by
    cases hrev : ((l.dropWhile isPySpace).reverse.dropWhile isPySpace).reverse with
    | nil => simp
    | cons c t =>
      have hsuf : (l.dropWhile isPySpace).reverse.dropWhile isPySpace
          <:+ (l.dropWhile isPySpace).reverse := List.dropWhile_suffix _
      have hpre : ((l.dropWhile isPySpace).reverse.dropWhile isPySpace).reverse
          <+: l.dropWhile isPySpace := by
        have h2 := List.reverse_prefix.mpr hsuf
        simpa using h2
      obtain ⟨s, hs⟩ := hpre
      rw [hrev] at hs
      have hc : isPySpace c = false := by
        have h3 := List.head?_dropWhile_not isPySpace l
        rw [← hs] at h3
        simpa using h3
      simp [List.dropWhile_cons, hc]
  rw [h1, List.reverse_reverse, dropWhile_dropWhile]

theorem mem_flushSection {s : PySection} {secs : List PySection} {cur : Option PySection}
    (h : s ∈ flushSection secs cur) : s ∈ secs ∨ cur = some s := by
  cases cur with
  | none => exact Or.inl h
  | some c =>
    simp only [flushSection, List.mem_append, List.mem_singleton] at h
    rcases h with h | rfl
    · exact Or.inl h
    · exact Or.inr rfl

theorem sectionStep_title_invariant (st : List PySection × Option PySection)
    (rawLine : List Char)
    (h1 : ∀ s ∈ st.1, pyStripList s.title = s.title)
    (h2 : ∀ s, st.2 = some s → pyStripList s.title = s.title) :
    (∀ s ∈ (sectionStep st rawLine).1, pyStripList s.title = s.title) ∧
    (∀ s, (sectionStep st rawLine).2 = some s → pyStripList s.title = s.title) := by
  obtain ⟨secs, cur⟩ := st
  simp only [sectionStep]
  split
  · exact ⟨h1, h2⟩
  · split
    · refine ⟨?_, ?_⟩
      · intro s hs
        rcases mem_flushSection hs with h | h
        · exact h1 s h
        · exact h2 s h
      · intro s hs
        obtain rfl : s = ⟨pyStripList (afterFirstColon (pyStripList rawLine)), [], some []⟩ :=
          (Option.some_inj.mp hs).symm
        exact pyStripList_idem _
    · cases hcur : cur with
      | none => exact ⟨h1, fun s hs => nomatch hs⟩
      | some cs =>
        have hcs : pyStripList cs.title = cs.title := h2 cs hcur
        simp only
        split
        · split
          · exact ⟨h1, by intro s hs; obtain rfl := (Option.some_inj.mp hs).symm; exact hcs⟩
          · exact ⟨h1, by intro s hs; rw [← hcur] at hs; exact h2 s hs⟩
        · split
          · split
            · exact ⟨h1, by intro s hs; obtain rfl := (Option.some_inj.mp hs).symm; exact hcs⟩
            · exact ⟨h1, by intro s hs; rw [← hcur] at hs; exact h2 s hs⟩
          · exact ⟨h1, by intro s hs; rw [← hcur] at hs; exact h2 s hs⟩

theorem foldl_sectionStep_title_invariant :
    ∀ (lines : List (List Char)) (st : List PySection × Option PySection),
      (∀ s ∈ st.1, pyStripList s.title = s.title) →
      (∀ s, st.2 = some s → pyStripList s.title = s.title) →
      (∀ s ∈ (lines.foldl sectionStep st).1, pyStripList s.title = s.title) ∧
      (∀ s, (lines.foldl sectionStep st).2 = some s → pyStripList s.title = s.title)
  | [], st, h1, h2 => ⟨h1, h2⟩
  | line :: rest, st, h1, h2 => by
    have h := sectionStep_title_invariant st line h1 h2
    simpa only [List.foldl_cons] using
      foldl_sectionStep_title_invariant rest (sectionStep st line) h.1 h.2

/-- Claim C1 (amended): in the slide renderer, the body of a content
slide is the section's points rendered as bulleted lines, and the
"Key Details" sub-list (nested bullet glyph) follows exactly when the
`'sub_points'` key is present in the section dict — even when the
sub-point sequence is empty, in which case a bare "Key Details:"
header is emitted.  Only a section with an absent `'sub_points'` key
produces no "Key Details" block. -/
theorem contentText_keyDetails (s : PySection) :
    (s.sub_points = none → contentText s = bulletLines s.points) ∧
    (∀ subs, s.sub_points = some subs →
      contentText s =
        bulletLines s.points ++ "\nKey Details:\n".data ++ subBulletLines subs) := by
  constructor
  · intro h
    simp only [contentText, h, bulletLines]
  · intro subs h
    simp only [contentText, h]
    rw [show s.points.foldl (fun acc point => acc ++ ("• ".data ++ point ++ "\n".data)) []
          = bulletLines s.points from rfl]
    rw [subBulletLines_shift]

/-- Witness for C1: the amended statement applied to a concrete
section carrying one sub-point. -/
theorem contentText_keyDetails_witness :
    contentText ⟨"T".data, ["p".data], some ["s1".data]⟩ =
      bulletLines ["p".data] ++ "\nKey Details:\n".data ++ subBulletLines ["s1".data] :=
  (contentText_keyDetails ⟨"T".data, ["p".data], some ["s1".data]⟩).2 ["s1".data] rfl

/-- Counterexample for C1 as stated: a section whose `sub_points`
sequence is present but empty still gets a "Key Details" block in its
slide body, contradicting "a section with empty sub_points produces
no Key Details block". -/
theorem contentText_keyDetails_cex :
    contentText ⟨"Intro".data, ["p1".data], some []⟩ = "• p1\n\nKey Details:\n".data ∧
    contentText ⟨"Intro".data, ["p1".data], some []⟩ ≠ bulletLines ["p1".data] := by
  exact ⟨by decide, by decide⟩

/-- Claim C2 (amended): immediately after persisting, each renderer
verifies only that the artifact exists: it raises a fatal error iff
the file is absent, and a normal return implies existence — but not
non-zero length, which is never checked at render time. -/
theorem renderVerify_existence (filename : List Char) (fsAfterSave : Option Nat) :
    (pptxVerify filename fsAfterSave = .ok filename ↔ fsAfterSave ≠ none) ∧
    (docxVerify filename fsAfterSave = .ok filename ↔ fsAfterSave ≠ none) := by
  cases fsAfterSave <;> simp [pptxVerify, docxVerify]

/-- Witness for C2: a present artifact makes both verifications
return normally. -/
theorem renderVerify_existence_witness :
    pptxVerify "a.pptx".data (some 10) = .ok "a.pptx".data :=
  (renderVerify_existence "a.pptx".data (some 10)).1.mpr (by simp)

/-- Counterexample for C2 as stated: a zero-length persisted artifact
passes the pptx post-save check and the renderer returns normally,
contradicting "a render that returns normally implies the persisted
artifact has non-zero length". -/
theorem renderVerify_zero_length_cex :
    pptxVerify "seminar_1.pptx".data (some 0) = .ok "seminar_1.pptx".data ∧
    docxVerify "seminar_1.docx".data (some 0) = .ok "seminar_1.docx".data := by
  exact ⟨rfl, rfl⟩

/-- Claim C3: if the outline parser finds fewer than 4 sections the
result is fully replaced by the fixed six-section template (exactly 4
bullet points per section, the first one topic-interpolated); with 4
or more sections the parsed output is retained unchanged. -/
theorem fallback_threshold_sections (topic text : List Char) :
    ((parseSections text).length < 4 →
      sectionsAfterFallback topic text = fallbackSections6 topic) ∧
    (4 ≤ (parseSections text).length →
      sectionsAfterFallback topic text = parseSections text) ∧
    (fallbackSections6 topic).length = 6 ∧
    (fallbackSections6 topic).map PySection.title =
      ["Introduction and Overview".data, "Literature Review and Background".data,
       "Core Concepts and Methodology".data, "Applications and Case Studies".data,
       "Challenges and Limitations".data, "Future Scope and Recommendations".data] ∧
    (∀ s ∈ fallbackSections6 topic, s.points.length = 4) := by
  refine ⟨?_, ?_, rfl, rfl, ?_⟩
  · intro h
    simp only [sectionsAfterFallback, if_pos h]
  · intro h
    simp only [sectionsAfterFallback, if_neg (Nat.not_lt.mpr h)]
  · intro s hs
    simp only [fallbackSections6, List.mem_cons, List.not_mem_nil, or_false] at hs
    rcases hs with rfl | rfl | rfl | rfl | rfl | rfl <;> rfl

/-- Witness for C3: an unparseable text (0 sections) is replaced by
the six-section template, and a text with exactly 4 sections is
retained verbatim. -/
theorem fallback_threshold_sections_witness :
    sectionsAfterFallback "AI".data "".data = fallbackSections6 "AI".data ∧
    sectionsAfterFallback "AI".data "Section 1: A\nSection 2: B\nSection 3: C\nSection 4: D".data
      = parseSections "Section 1: A\nSection 2: B\nSection 3: C\nSection 4: D".data :=
  ⟨(fallback_threshold_sections "AI".data "".data).1 (by decide),
   (fallback_threshold_sections "AI".data
     "Section 1: A\nSection 2: B\nSection 3: C\nSection 4: D".data).2.1 (by decide)⟩

/-- Claim C4: if the Q&A parser finds fewer than 5 pairs the result is
fully replaced by the fixed eight-pair topic-interpolated template;
with 5 or more pairs the parsed output is retained unchanged. -/
theorem fallback_threshold_qna (topic text : List Char) :
    ((parseQnA text).length < 5 → qnaAfterFallback topic text = fallbackQnA8 topic) ∧
    (5 ≤ (parseQnA text).length → qnaAfterFallback topic text = parseQnA text) ∧
    (fallbackQnA8 topic).length = 8 := by
  refine ⟨?_, ?_, rfl⟩
  · intro h
    simp only [qnaAfterFallback, if_pos h]
  · intro h
    simp only [qnaAfterFallback, if_neg (Nat.not_lt.mpr h)]

/-- Witness for C4: an unparseable text (0 pairs) is replaced by the
eight-pair template, and a text with exactly 5 pairs is retained
verbatim. -/
theorem fallback_threshold_qna_witness :
    qnaAfterFallback "AI".data "".data = fallbackQnA8 "AI".data ∧
    qnaAfterFallback "AI".data
        "Q: a\nA: b\nQ: c\nA: d\nQ: e\nA: f\nQ: g\nA: h\nQ: i\nA: j".data
      = parseQnA "Q: a\nA: b\nQ: c\nA: d\nQ: e\nA: f\nQ: g\nA: h\nQ: i\nA: j".data :=
  ⟨(fallback_threshold_qna "AI".data "".data).1 (by decide),
   (fallback_threshold_qna "AI".data
     "Q: a\nA: b\nQ: c\nA: d\nQ: e\nA: f\nQ: g\nA: h\nQ: i\nA: j".data).2.1 (by decide)⟩

/-- Claim C5 (amended): on a line beginning with "Q:" or "Question",
the previous pair is flushed exactly when both the question and the
answer slot are non-empty, the answer slot is reset to empty, and the
new current question is the stripped line with every occurrence of
"Q:" removed and then every occurrence of "Question:" removed,
trimmed — not merely the leading prefix, so interior "Q:" substrings
are deleted too, and a line starting with "Question" but not
"Question:" keeps that word. -/
theorem qnaStep_question_line (pairs : List QnAPair) (current_q current_a rawLine : List Char)
    (h : (startsWithL "Q:".data (pyStripList rawLine)
          || startsWithL "Question".data (pyStripList rawLine)) = true) :
    qnaStep (pairs, current_q, current_a) rawLine =
      ((if current_q ≠ [] ∧ current_a ≠ [] then pairs ++ [⟨current_q, current_a⟩] else pairs),
       pyStripList (pyReplace "Question:".data [] (pyReplace "Q:".data [] (pyStripList rawLine))),
       []) := by
  simp only [qnaStep, h, if_true]

/-- Witness for C5: the amended statement applied to a concrete
question line with empty slots (no flush, prefix stripped). -/
theorem qnaStep_question_line_witness :
    qnaStep ([], [], []) "Q: hi".data = ([], "hi".data, []) := by
  rw [qnaStep_question_line [] [] [] "Q: hi".data (by decide)]
  decide

/-- Counterexample for C5 as stated: for the line "Q: What does Q:
mean", `replace` deletes the interior "Q:" as well, so the stored
question is "What does  mean", not the claimed remainder "What does
Q: mean" with only the leading prefix removed. -/
theorem qnaStep_question_line_cex :
    parseQnA "Q: What does Q: mean\nA: x".data =
      [⟨"What does  mean".data, "x".data⟩] ∧
    "What does  mean".data ≠ "What does Q: mean".data := by
  exact ⟨by decide, by decide⟩

/-- Claim C6 (amended): every section title produced by the outline
parser is whitespace-trimmed (stripping it again is the identity): it
is the text after the first colon of the section-start line, trimmed.
Titles are not necessarily non-empty. -/
theorem parseSections_title_trimmed (text : List Char) :
    ∀ s ∈ parseSections text, pyStripList s.title = s.title := by
  intro s hs
  unfold parseSections at hs
  have h := foldl_sectionStep_title_invariant (splitNL text) ([], none)
    (by intro s hs; exact absurd hs (List.not_mem_nil s))
    (by intro s hs; exact nomatch hs)
  rcases mem_flushSection hs with h1 | h1
  · exact h.1 s h1
  · exact h.2 s h1

/-- Witness for C6: the theorem applied to a concrete parse. -/
theorem parseSections_title_trimmed_witness :
    pyStripList "Intro".data = "Intro".data :=
  parseSections_title_trimmed "Section 1: Intro".data
    ⟨"Intro".data, [], some []⟩ (by decide)

/-- Counterexample for C6 as stated: the section-start line
"Section 1:" has nothing after its colon, and the parser emits a
section whose title is the empty string, contradicting "every Section
has a non-empty title". -/
theorem parseSections_empty_title_cex :
    (parseSections "Section 1:".data).map PySection.title = [[]] := by
  decide

/-- Claim C7: a question line followed by another question line before
any answer discards the orphaned first question without flushing a
pair: parsing "Q: first", "Q: second", "A: only answer" yields
exactly one pair, question "second" with answer "only answer". -/
theorem parseQnA_orphaned_question :
    parseQnA "Q: first\nQ: second\nA: only answer".data =
      [⟨"second".data, "only answer".data⟩] := by
  decide

/-- Claim C8: the deck built by the slide renderer for `k` sections
has exactly `k + 3` slides: title, agenda, one per section, and
conclusion. -/
theorem buildDeck_length (topic : List Char) (sections : List PySection)
    (info : StudentInfo) :
    (buildDeck topic sections info).length = sections.length + 3 := by
  unfold buildDeck
  rw [List.length_append, length_foldl_contentSlide]
  simp
  omega

/-- Claim C9: at artifact-retrieval time, an absent file is answered
with a 404 not-found error, a present but zero-length file with a 500
server error, and only a present non-empty file is served — the
response then carries exactly the requested path, never substitute
content. -/
theorem download_file_errors (fs : Option Nat) (filename : List Char) :
    (fs = none → download_file fs filename = .httpError 404 "File not found".data) ∧
    (fs = some 0 → download_file fs filename = .httpError 500 "Generated file is empty".data) ∧
    (∀ n, fs = some n → n ≠ 0 →
      download_file fs filename = .file filename (mediaTypeFor filename)) := by
  refine ⟨?_, ?_, ?_⟩
  · intro h
    rw [h]
    rfl
  · intro h
    rw [h]
    rfl
  · intro n h hn
    rw [h]
    simp [download_file, hn]

/-- Witness for C9: the three branches at concrete file states. -/
theorem download_file_errors_witness :
    download_file none "x.txt".data = .httpError 404 "File not found".data ∧
    download_file (some 0) "x.txt".data = .httpError 500 "Generated file is empty".data ∧
    download_file (some 5) "x.txt".data = .file "x.txt".data (mediaTypeFor "x.txt".data) :=
  ⟨(download_file_errors none "x.txt".data).1 rfl,
   (download_file_errors (some 0) "x.txt".data).2.1 rfl,
   (download_file_errors (some 5) "x.txt".data).2.2 5 rfl (by decide)⟩

/-- Claim C10: when an exception escapes the `try` body of
`generate_detailed_content`, it is not propagated: the function
returns the fixed four-section template (Introduction, Technical
Details, Applications, Future Scope) with exactly three bullet points
per section, which is a different, smaller template than the
six-section below-threshold fallback. -/
theorem gdc_exception_fallback (topic msg : List Char) :
    generate_detailed_content topic (.error msg) = fallbackSections4 topic ∧
    (fallbackSections4 topic).length = 4 ∧
    (fallbackSections4 topic).map PySection.title =
      ["Introduction".data, "Technical Details".data,
       "Applications".data, "Future Scope".data] ∧
    (∀ s ∈ fallbackSections4 topic, s.points.length = 3) ∧
    fallbackSections4 topic ≠ fallbackSections6 topic := by
  refine ⟨rfl, rfl, rfl, ?_, ?_⟩
  · intro s hs
    simp only [fallbackSections4, List.mem_cons, List.not_mem_nil, or_false] at hs
    rcases hs with rfl | rfl | rfl | rfl <;> rfl
  · intro h
    have hlen := congrArg List.length h
    simp only [fallbackSections4, fallbackSections6, List.length_cons,
      List.length_nil] at hlen
    omega

/-- Witness for C10: the exception path at a concrete topic, and the
three-point property at the first template section. -/
theorem gdc_exception_fallback_witness :
    generate_detailed_content "AI".data (.error "boom".data) = fallbackSections4 "AI".data ∧
    (PySection.mk "Introduction".data
      ["Overview of AI".data, "Significance and applications".data,
       "Presentation objectives".data] none).points.length = 3 :=
  ⟨(gdc_exception_fallback "AI".data "boom".data).1,
   (gdc_exception_fallback "AI".data "boom".data).2.2.2.1
     ⟨"Introduction".data,
      ["Overview of AI".data, "Significance and applications".data,
       "Presentation objectives".data], none⟩ (by decide)⟩
